import Mathlib

/-!
Verification of the two services of the k8s-microservices-demo repository:
the back-end greeting service (`greeting-service/app.py`) and the front-end
web service (`web-service/app.py`).

The handlers are embedded shallowly: process-wide configuration read from the
environment becomes an explicit `Option String` parameter, the outcome of the
single outbound HTTP call becomes an explicit `FetchOutcome` value, and each
Flask handler becomes a pure Lean function from those inputs to the response
it returns (body, status and the list of outbound requests it issued).
Behaviour of the third-party `requests` library (timeout contract,
`raise_for_status`, `Response.json`) is modelled from its documented contract
where the handler relies on it; each such definition says so in its
doc comment.
-/

namespace Demo

/-- JSON values: the shape of decoded bodies exchanged between the services
(Python objects produced by `json` decoding: `None`, booleans, numbers,
strings, lists, dicts). Numbers are modelled as integers; the services only
ever produce strings. -/
inductive Json where
  | null
  | bool (b : Bool)
  | num (n : Int)
  | str (s : String)
  | arr (elems : List Json)
  | obj (fields : List (String × Json))

mutual

/-- Python `repr` of a decoded JSON value, as `str` falls back to it for
non-string values interpolated into an f-string. -/
def Json.pyRepr : Json → String
  | .null => "None"
  | .bool true => "True"
  | .bool false => "False"
  | .num n => toString n
  | .str s => "\x27" ++ s ++ "\x27"
  | .arr xs => "[" ++ Json.pyReprList xs ++ "]"
  | .obj fs => "\x7b" ++ Json.pyReprFields fs ++ "\x7d"

/-- Comma-separated `repr` of the elements of a Python list. -/
def Json.pyReprList : List Json → String
  | [] => ""
  | [x] => Json.pyRepr x
  | x :: y :: xs => Json.pyRepr x ++ ", " ++ Json.pyReprList (y :: xs)

/-- Comma-separated `repr` of the entries of a Python dict. -/
def Json.pyReprFields : List (String × Json) → String
  | [] => ""
  | [(k, v)] => "\x27" ++ k ++ "\x27: " ++ Json.pyRepr v
  | (k, v) :: f :: fs =>
    "\x27" ++ k ++ "\x27: " ++ Json.pyRepr v ++ ", " ++ Json.pyReprFields (f :: fs)

end

/-- Python `str` of a decoded JSON value, as applied by f-string
interpolation: a string renders as itself, anything else via `repr`-like
formatting. -/
def Json.pyStr : Json → String
  | .str s => s
  | .null => Json.pyRepr .null
  | .bool b => Json.pyRepr (.bool b)
  | .num n => Json.pyRepr (.num n)
  | .arr xs => Json.pyRepr (.arr xs)
  | .obj fs => Json.pyRepr (.obj fs)

/-- Is the value a JSON object (a Python dict, the only value with a `.get`
method)? -/
def Json.isObj : Json → Bool
  | .obj _ => true
  | _ => false

/-- Lookup of a key in a decoded JSON object (Python dict indexing; the dicts
produced by JSON decoding have distinct keys). -/
def dictLookup (fields : List (String × Json)) (key : String) : Option Json :=
  (fields.find? fun p => p.1 == key).map fun p => p.2

/-- Python `dict.get(key, default)`. -/
def dictGet (fields : List (String × Json)) (key : String) (d : Json) : Json :=
  (dictLookup fields key).getD d

/-! ## Back-end: greeting-service/app.py -/

/-- `GREETING_MSG = os.getenv('GREETING_MSG', 'Hello from the Backend!')`
(line 8): the configured greeting text, with its default. -/
def GREETING_MSG (env : Option String) : String :=
  env.getD "Hello from the Backend!"

/-- The `greet` handler (greeting-service/app.py lines 10-21): builds the
greeting dict from the configured message and the process hostname and
returns it JSON-encoded with status 200 (`jsonify`'s default status). -/
def greet (env : Option String) (hostname : String) : Json × Nat :=
  (.obj [("message", .str (GREETING_MSG env)),
         ("pod", .str hostname),
         ("version", .str "v3")], 200)

/-- A run of `n` requests against the greeting endpoint of one back-end
process: the configuration and the hostname are fixed for the process
lifetime and the handler reads nothing else, so every invocation evaluates
the same pure function on the same arguments. -/
def processRun (env : Option String) (hostname : String) (n : Nat) :
    List (Json × Nat) :=
  List.replicate n (greet env hostname)

/-! ## Front-end: web-service/app.py -/

/-- `BACKEND_URL = os.getenv('BACKEND_URL', 'http://localhost:4001')`
(line 9). -/
def BACKEND_URL (env : Option String) : String :=
  env.getD "http://localhost:4001"

/-- The timeout passed to the single outbound call,
`requests.get(..., timeout=5)` (line 18). -/
def requestTimeout : Nat := 5

/-- The target of the outbound call, `f'{BACKEND_URL}/greet'` (line 18). -/
def greetUrl (backendUrl : String) : String := backendUrl ++ "/greet"

/-- The observable outcome of `requests.get(url, timeout=5)`: either the call
itself raised a `requests.exceptions.RequestException` (connection refused,
DNS failure, timeout expiry) carrying the string the handler would render via
`str(e)`, or a response arrived, carrying its status code, its reason phrase,
and the result of decoding its body as JSON (`Except.error` holds the decode
error message when the body is not valid JSON; modelled from `requests`,
where `Response.json()` raises `requests.exceptions.JSONDecodeError`, a
`RequestException`, on undecodable bodies). -/
inductive FetchOutcome where
  | transportError (cause : String)
  | response (status : Nat) (reason : String) (body : Except String Json)

/-- Whether the try-block of `index` raises
`requests.exceptions.RequestException` on this outcome. Modelled from
`requests`: `requests.get` itself raises on transport failure;
`Response.raise_for_status` raises `HTTPError` exactly for status codes in
400..599; `Response.json()` raises `requests.exceptions.JSONDecodeError`
(a `RequestException`) exactly when the body is not valid JSON. -/
def requestExceptionRaised : FetchOutcome → Bool
  | .transportError _ => true
  | .response _ _ (.error _) => true
  | .response s _ (.ok _) => decide (400 ≤ s) && decide (s < 600)

/-- The message of the `HTTPError` raised by `Response.raise_for_status`,
modelled from `requests`: client errors for 400..499, server errors for
500..599. -/
def httpErrorMessage (status : Nat) (reason url : String) : String :=
  if status < 500 then
    toString status ++ " Client Error: " ++ reason ++ " for url: " ++ url
  else
    toString status ++ " Server Error: " ++ reason ++ " for url: " ++ url

/-- What a front-end handler does with a request: return a page with a
status, or let an exception of a class other than
`requests.exceptions.RequestException` escape the handler (named by its
Python class). -/
inductive HandlerResult where
  | page (body : String) (status : Nat)
  | unhandled (exc : String)

/-- Is the result a normally returned page (as opposed to an exception
escaping the handler)? -/
def HandlerResult.isPage : HandlerResult → Bool
  | .page _ _ => true
  | .unhandled _ => false

/-- The HTTP status of the result, when it is a returned page. -/
def HandlerResult.statusOf : HandlerResult → Option Nat
  | .page _ st => some st
  | .unhandled _ => none

/-- The success template of `index` (lines 25-67) up to the `{message}`
hole. Literal output braces (written `\x7b\x7b`/`\x7d\x7d` in the Python
f-string) appear once here. -/
def successHtmlPre : String :=
"
        <!DOCTYPE html>
        <html>
        <head>
            <title>Microservices Demo</title>
            <style>
                body \x7b
                    font-family: Arial, sans-serif;
                    max-width: 600px;
                    margin: 50px auto;
                    padding: 20px;
                    background-color: #f0f0f0;
                \x7d
                .container \x7b
                    background-color: white;
                    padding: 30px;
                    border-radius: 10px;
                    box-shadow: 0 2px 10px rgba(0,0,0,0.1);
                \x7d
                h1 \x7b color: #333; \x7d
                .message \x7b\x20
                    font-size: 24px;\x20
                    color: #007bff;
                    margin: 20px 0;
                \x7d
                .pod-info \x7b
                    font-size: 14px;
                    color: #666;
                    margin-top: 20px;
                \x7d
            </style>
        </head>
        <body>
            <div class=\"container\">
                <h1>🚀 Kubernetes Microservices Demo</h1>
                <div class=\"message\">"

/-- The success template between the `{message}` and `{pod}` holes. -/
def successHtmlMid : String :=
"</div>
                <div class=\"pod-info\">
                    <strong>Backend Pod:</strong> "

/-- The success template after the `{pod}` hole. -/
def successHtmlPost : String :=
"
                </div>
            </div>
        </body>
        </html>
        "

/-- The success page of `index`: the f-string of lines 25-67, with the
`message` and `pod` values interpolated via Python `str`. -/
def successHtml (message pod : Json) : String :=
  successHtmlPre ++ message.pyStr ++ successHtmlMid ++ pod.pyStr ++ successHtmlPost

/-- The error template of `index` (lines 71-81) up to the `{BACKEND_URL}`
hole. -/
def errorHtmlPre : String :=
"
        <!DOCTYPE html>
        <html>
        <head><title>Error</title></head>
        <body>
            <h1>❌ Error Connecting to Backend</h1>
            <p>Could not reach the greeting-service at "

/-- The error template between the `{BACKEND_URL}` and `{str(e)}` holes. -/
def errorHtmlMid : String :=
"</p>
            <p>Error: "

/-- The error template after the `{str(e)}` hole. -/
def errorHtmlPost : String :=
"</p>
        </body>
        </html>
        "

/-- The error page of `index`: the f-string of lines 71-81, naming the
configured back-end address and `str(e)` of the caught exception. -/
def errorHtml (backendUrl cause : String) : String :=
  errorHtmlPre ++ backendUrl ++ errorHtmlMid ++ cause ++ errorHtmlPost

/-- The `index` handler (web-service/app.py lines 11-82), as a function of
the configured back-end address and the outcome of its one outbound call.
Mirrors the source control flow: a `RequestException` from `requests.get`
(transport failure) is caught and rendered as the error page with status
500; otherwise `raise_for_status` raises (caught likewise) for statuses in
400..599; otherwise `response.json()` raises (caught likewise) when the body
is undecodable; otherwise `data.get('message', 'No message')` and
`data.get('pod', 'unknown')` feed the success page returned with Flask's
default status 200 — unless the decoded body is not a dict, in which case
`.get` raises an `AttributeError` that no except-clause matches. The second
component lists the outbound requests issued while handling the request. -/
def index (backendUrl : String) (outcome : FetchOutcome) :
    HandlerResult × List String :=
  (match outcome with
   | .transportError cause => .page (errorHtml backendUrl cause) 500
   | .response status reason body =>
     if 400 ≤ status ∧ status < 600 then
       .page (errorHtml backendUrl
         (httpErrorMessage status reason (greetUrl backendUrl))) 500
     else
       match body with
       | .error msg => .page (errorHtml backendUrl msg) 500
       | .ok (Json.obj fields) =>
         .page (successHtml (dictGet fields "message" (Json.str "No message"))
                            (dictGet fields "pod" (Json.str "unknown"))) 200
       | .ok _ => .unhandled "AttributeError",
   [greetUrl backendUrl])

/-- The `health` handler of the front-end (lines 84-87): the constant
`("OK", 200)`, issuing no outbound request. -/
def health : HandlerResult × List String :=
  (.page "OK" 200, [])

/-- `str(e)` of the `requests` timeout exception; modelled from the spec and
the documented `requests` timeout contract (the exact text is irrelevant to
the handler, which embeds it verbatim). -/
def timeoutCause : String := "Read timed out. (read timeout=5)"

/-- Timing model of `requests.get(url, timeout=t)`, from the documented
contract of the `timeout` parameter: against a back-end that would answer
after `delay` time-units (`none`: never answers) with the given status,
reason and body, the call returns after `min delay t` time-units — the
response if it arrived within `t`, a timeout `RequestException` otherwise.
First component: time-units the call blocked; second: its outcome. -/
def timedFetch (t : Nat) (delay : Option Nat) (status : Nat) (reason : String)
    (body : Except String Json) : Nat × FetchOutcome :=
  match delay with
  | none => (t, .transportError timeoutCause)
  | some d =>
    if t < d then (t, .transportError timeoutCause)
    else (d, .response status reason body)

/-- The `index` handler together with the timing of its outbound call
(issued with the source's `timeout=5`): how long the handler blocked, and
what it returned. -/
def timedIndex (backendUrl : String) (delay : Option Nat) (status : Nat)
    (reason : String) (body : Except String Json) :
    Nat × (HandlerResult × List String) :=
  let f := timedFetch requestTimeout delay status reason body
  (f.1, index backendUrl f.2)

/-! ## Claims -/

/-- C1: for every back-end response with success status whose body decodes to
a JSON object with string fields `message` and `pod`, `index` returns the
success page with status 200, and that page embeds exactly those `message`
and `pod` values verbatim between the fixed template parts. -/
theorem C1_success_page_verbatim (u reason m p : String) (s : Nat)
    (fields : List (String × Json))
    (hs1 : 200 ≤ s) (hs2 : s < 300)
    (hm : dictLookup fields "message" = some (Json.str m))
    (hp : dictLookup fields "pod" = some (Json.str p)) :
    index u (.response s reason (.ok (.obj fields)))
      = (.page (successHtml (.str m) (.str p)) 200, [greetUrl u])
    ∧ successHtml (.str m) (.str p)
      = successHtmlPre ++ (m ++ (successHtmlMid ++ (p ++ successHtmlPost))) := by
  have hcond : ¬ (400 ≤ s ∧ s < 600) := by omega
  refine ⟨?_, ?_⟩
  · simp [index, hcond, dictGet, hm, hp]
  · simp [successHtml, Json.pyStr, String.append_assoc]

/-- Witness for C1 at a concrete success response. -/
theorem C1_success_page_verbatim_witness :
    index "http://localhost:4001"
        (.response 200 "OK"
          (.ok (.obj [("message", Json.str "Hello from the Backend!"),
                      ("pod", Json.str "web-abc"),
                      ("version", Json.str "v3")])))
      = (.page (successHtml (.str "Hello from the Backend!") (.str "web-abc")) 200,
         [greetUrl "http://localhost:4001"]) :=
  (C1_success_page_verbatim "http://localhost:4001" "OK" "Hello from the Backend!"
    "web-abc" 200
    [("message", Json.str "Hello from the Backend!"),
     ("pod", Json.str "web-abc"),
     ("version", Json.str "v3")]
    (by decide) (by decide) rfl rfl).1

/-- C2: on a transport failure of the outbound call, `index` returns status
500 with the error page, which names the configured back-end address and the
cause string; exactly one outbound request was attempted (no retry). -/
theorem C2_transport_failure_error_page (u cause : String) :
    index u (.transportError cause)
      = (.page (errorHtml u cause) 500, [greetUrl u])
    ∧ (∃ a b : String, errorHtml u cause = a ++ (u ++ b))
    ∧ (∃ a b : String, errorHtml u cause = a ++ (cause ++ b))
    ∧ (index u (.transportError cause)).2.length = 1 := by
  refine ⟨rfl, ⟨errorHtmlPre, errorHtmlMid ++ cause ++ errorHtmlPost, ?_⟩,
    ⟨errorHtmlPre ++ u ++ errorHtmlMid, errorHtmlPost, ?_⟩, rfl⟩ <;>
    simp [errorHtml, String.append_assoc]

/-- C3: a response whose status is a non-success (error) status, 400..599,
is treated as a failure: `index` returns status 500 with the error page,
whatever the body; and the handler never passes an upstream status through —
any page it returns has status 200 or 500. -/
theorem C3_error_status_maps_to_500 (u reason : String) (s : Nat)
    (body : Except String Json) (h1 : 400 ≤ s) (h2 : s < 600) :
    index u (.response s reason body)
      = (.page (errorHtml u (httpErrorMessage s reason (greetUrl u))) 500,
         [greetUrl u])
    ∧ ∀ o : FetchOutcome,
        (index u o).1.statusOf = some 200 ∨ (index u o).1.statusOf = some 500
        ∨ (index u o).1.statusOf = none := by
  constructor
  · have hcond : 400 ≤ s ∧ s < 600 := ⟨h1, h2⟩
    simp [index, hcond]
  · intro o
    cases o with
    | transportError c => simp [index, HandlerResult.statusOf]
    | response s2 r2 b2 =>
      by_cases hc : 400 ≤ s2 ∧ s2 < 600
      · simp [index, hc, HandlerResult.statusOf]
      · cases b2 with
        | error em => simp [index, hc, HandlerResult.statusOf]
        | ok j =>
          cases j <;> simp [index, hc, HandlerResult.statusOf]

/-- Witness for C3 at a concrete 404 response. -/
theorem C3_error_status_maps_to_500_witness :
    index "http://localhost:4001" (.response 404 "NOT FOUND" (.ok (.obj [])))
      = (.page (errorHtml "http://localhost:4001"
          (httpErrorMessage 404 "NOT FOUND" (greetUrl "http://localhost:4001"))) 500,
         [greetUrl "http://localhost:4001"]) :=
  (C3_error_status_maps_to_500 "http://localhost:4001" "NOT FOUND" 404
    (.ok (.obj [])) (by decide) (by decide)).1

/-- C4 counterexample: a success response whose body is valid JSON but not
the expected object shape (here the JSON array `[]`) does NOT produce the
error outcome: `data.get` raises an `AttributeError` that no except-clause
catches, so an unhandled exception escapes the handler instead of a page. -/
theorem C4_nonobject_body_counterexample :
    (index "http://localhost:4001" (.response 200 "OK" (.ok (.arr [])))).1
      = .unhandled "AttributeError"
    ∧ ((index "http://localhost:4001" (.response 200 "OK" (.ok (.arr [])))).1).isPage
      = false :=
  ⟨rfl, rfl⟩

/-- C4 amended: a success response whose body is not valid JSON yields the
500 error page (the `JSONDecodeError` is a `RequestException` and is caught);
but a success response whose body is valid JSON of a non-object shape makes
the field lookups raise an uncaught `AttributeError`, not the error page. -/
theorem C4_malformed_body_amended (u reason em : String) (s : Nat) (j : Json)
    (hs1 : 200 ≤ s) (hs2 : s < 300) :
    index u (.response s reason (.error em))
      = (.page (errorHtml u em) 500, [greetUrl u])
    ∧ (j.isObj = false →
        (index u (.response s reason (.ok j))).1 = .unhandled "AttributeError") := by
  have hcond : ¬ (400 ≤ s ∧ s < 600) := by omega
  constructor
  · simp [index, hcond]
  · intro hj
    cases j <;> simp_all [index, hcond, Json.isObj]

/-- Witness for C4's amended claim at a concrete undecodable body and a
concrete non-object body. -/
theorem C4_malformed_body_amended_witness :
    index "http://localhost:4001"
        (.response 200 "OK" (.error "Expecting value: line 1 column 1 (char 0)"))
      = (.page (errorHtml "http://localhost:4001"
          "Expecting value: line 1 column 1 (char 0)") 500,
         [greetUrl "http://localhost:4001"])
    ∧ (index "http://localhost:4001" (.response 200 "OK" (.ok (.str "hi")))).1
      = .unhandled "AttributeError" :=
  ⟨(C4_malformed_body_amended "http://localhost:4001" "OK"
      "Expecting value: line 1 column 1 (char 0)" 200 (.str "hi")
      (by decide) (by decide)).1,
   (C4_malformed_body_amended "http://localhost:4001" "OK"
      "Expecting value: line 1 column 1 (char 0)" 200 (.str "hi")
      (by decide) (by decide)).2 rfl⟩

/-- C5: on a success response whose body decodes to a JSON object, an absent
`message` field is rendered as the placeholder "No message" and an absent
`pod` field as the placeholder "unknown", instead of failing. -/
theorem C5_placeholder_defaults (u reason : String) (s : Nat)
    (fields : List (String × Json))
    (hs1 : 200 ≤ s) (hs2 : s < 300) :
    (dictLookup fields "message" = none →
      index u (.response s reason (.ok (.obj fields)))
        = (.page (successHtml (.str "No message")
            (dictGet fields "pod" (Json.str "unknown"))) 200, [greetUrl u]))
    ∧ (dictLookup fields "pod" = none →
      index u (.response s reason (.ok (.obj fields)))
        = (.page (successHtml (dictGet fields "message" (Json.str "No message"))
            (.str "unknown")) 200, [greetUrl u])) := by
  have hcond : ¬ (400 ≤ s ∧ s < 600) := by omega
  constructor
  · intro hm
    simp [index, hcond, dictGet, hm]
  · intro hp
    simp [index, hcond, dictGet, hp]

/-- Witness for C5 at a concrete success response with an empty object
body: both fields are absent and both placeholders are used. -/
theorem C5_placeholder_defaults_witness :
    index "http://localhost:4001" (.response 200 "OK" (.ok (.obj [])))
      = (.page (successHtml (.str "No message")
          (dictGet [] "pod" (Json.str "unknown"))) 200,
         [greetUrl "http://localhost:4001"]) :=
  (C5_placeholder_defaults "http://localhost:4001" "OK" 200 []
    (by decide) (by decide)).1 rfl

/-- C6: the code's outbound call is issued with an explicit timeout equal to
5 time-units; the call never blocks longer than that bound, whatever the
back-end does; and against a back-end that never responds the handler
returns the 500 error page, having blocked exactly the bound. -/
theorem C6_timeout_bound (u reason : String) (delay : Option Nat) (s : Nat)
    (body : Except String Json) :
    requestTimeout = 5
    ∧ (timedFetch requestTimeout delay s reason body).1 ≤ requestTimeout
    ∧ (delay = none →
        timedIndex u delay s reason body
          = (requestTimeout,
             (.page (errorHtml u timeoutCause) 500, [greetUrl u]))) := by
  refine ⟨rfl, ?_, ?_⟩
  · cases delay with
    | none => simp [timedFetch]
    | some d =>
      simp only [timedFetch]
      split <;> simp <;> omega
  · intro hd
    subst hd
    simp [timedIndex, timedFetch, index]

/-- Witness for C6 against a back-end that never responds. -/
theorem C6_timeout_bound_witness :
    timedIndex "http://localhost:4001" none 200 "OK" (.ok (.obj []))
      = (requestTimeout,
         (.page (errorHtml "http://localhost:4001" timeoutCause) 500,
          [greetUrl "http://localhost:4001"])) :=
  (C6_timeout_bound "http://localhost:4001" "OK" none 200 (.ok (.obj []))).2.2 rfl

/-- C7: the front-end health handler is the constant ("OK", 200) and issues
no outbound request; the quantified configuration and back-end outcome do
not occur in it, so it is independent of both. -/
theorem C7_health_constant (envBackend : Option String) (o : FetchOutcome) :
    health = (HandlerResult.page "OK" 200, ([] : List String))
    ∧ health.2.length = 0 :=
  ⟨rfl, rfl⟩

/-- C8: the back-end greeting handler returns status 200 and a JSON object
whose `message` field is the configured greeting text, whose `pod` field is
the process host identifier and whose `version` field is the fixed tag "v3";
being a total pure function of configuration and hostname, it has no
per-request failure modes and no side effects. -/
theorem C8_greet_contract (env : Option String) (host : String) :
    (greet env host).2 = 200
    ∧ (greet env host).1.isObj = true
    ∧ ∃ fs, (greet env host).1 = Json.obj fs
        ∧ dictLookup fs "message" = some (.str (GREETING_MSG env))
        ∧ dictLookup fs "pod" = some (.str host)
        ∧ dictLookup fs "version" = some (.str "v3") := by
  refine ⟨rfl, rfl,
    [("message", .str (GREETING_MSG env)), ("pod", .str host),
     ("version", .str "v3")],
    rfl, ?_, ?_, ?_⟩ <;> simp [dictLookup]

/-- C9: idempotence of the greeting endpoint — in a run of `n` requests
against one back-end process (fixed configuration, fixed hostname), any two
calls return the same response, so `message` and `version` are identical and
the `pod` identifier is stable across the process lifetime. -/
theorem C9_greet_idempotent (env : Option String) (host : String) (n i j : Nat)
    (hi : i < n) (hj : j < n) :
    (processRun env host n)[i]? = some (greet env host)
    ∧ (processRun env host n)[i]? = (processRun env host n)[j]? := by
  constructor
  · simp [processRun, List.getElem?_replicate, hi]
  · simp [processRun, List.getElem?_replicate, hi, hj]

/-- Witness for C9: the first and second call of a two-call run agree. -/
theorem C9_greet_idempotent_witness :
    (processRun none "pod-1" 2)[0]? = some (greet none "pod-1")
    ∧ (processRun none "pod-1" 2)[0]? = (processRun none "pod-1" 2)[1]? :=
  C9_greet_idempotent none "pod-1" 2 0 1 (by decide) (by decide)

/-- C10: `index` returns the 500 error page exactly when the try-block
raises a `requests.exceptions.RequestException` (transport failure, error
status via `raise_for_status`, or undecodable body via `Response.json`); any
other failure — a decodable body of non-object shape breaking the field
lookups — is not converted into the error page. -/
theorem C10_error_page_iff_request_exception (u : String) (o : FetchOutcome) :
    (∃ c, (index u o).1 = .page (errorHtml u c) 500)
      ↔ requestExceptionRaised o = true := by
  cases o with
  | transportError c =>
    exact iff_of_true ⟨c, rfl⟩ rfl
  | response s r b =>
    by_cases hc : 400 ≤ s ∧ s < 600
    · refine iff_of_true ⟨httpErrorMessage s r (greetUrl u), by simp [index, hc]⟩ ?_
      cases b <;> simp [requestExceptionRaised, hc.1, hc.2]
    · cases b with
      | error em =>
        exact iff_of_true ⟨em, by simp [index, hc]⟩ rfl
      | ok j =>
        refine iff_of_false ?_ ?_
        · rintro ⟨c, hcex⟩
          cases j <;> simp [index, hc] at hcex
        · intro h
          simp only [requestExceptionRaised, Bool.and_eq_true,
            decide_eq_true_eq] at h
          exact hc h

end Demo
